import Mathlib

/-!
Verification development for the whatsappAgent B2B message-processing
pipeline.  The Lean definitions below are shallow embeddings of the
Python source:

* `parse_b2b_json_response`, `build_reply_message`, `process_text_message`,
  `process_voice_note`, `is_whitelisted` embed
  `src/services/message_processor.py`;
* `save_b2b_task` embeds the row construction of
  `src/google_drive_service.py`.

Python dictionaries produced by `json.loads` are embedded as association
lists of `Json` values; `json.loads` itself is embedded as the executable
recursive-descent parser `jsonParse` over the JSON grammar accepted by
Python (strict dialect plus the `NaN` / `Infinity` extensions, numbers kept
as their lexemes since no claim inspects numeric values).  Remote calls
(HTTP transport, the generative model, the spreadsheet append) enter the
orchestrator definitions as explicit oracle parameters, with Python
exceptions represented by explicit `exn` outcomes / `Except` errors.
-/

/-- Embedded JSON values (the result type of the Python `json.loads`). -/
inductive Json where
  | null : Json
  | bool (b : Bool) : Json
  | num (lit : String) : Json
  | str (s : String) : Json
  | arr (xs : List Json) : Json
  | obj (kvs : List (String × Json)) : Json

/-- A decoded Python dictionary with string keys. -/
abbrev JsonObj := List (String × Json)

/-- Python whitespace for `str.strip()` (ASCII subset; the claims never
exercise the exotic Unicode spaces Python additionally strips). -/
def pyIsSpace (c : Char) : Bool :=
  c = ' ' || c = '\t' || c = '\n' || c = '\r' || c = Char.ofNat 11 || c = Char.ofNat 12

/-- Python `s.strip()`. -/
def pyStrip (s : String) : String :=
  ⟨((s.data.dropWhile pyIsSpace).reverse.dropWhile pyIsSpace).reverse⟩

/-- Python `s[:n]` for a nonnegative `n` (slicing by characters). -/
def pyTake (s : String) (n : Nat) : String := ⟨s.data.take n⟩

/-- Python `s[n:]` for a nonnegative `n`. -/
def pyDrop (s : String) (n : Nat) : String := ⟨s.data.drop n⟩

/-- Python `s[:-n]` (used for `cleaned[:-3]`). -/
def pyDropRight (s : String) (n : Nat) : String := ⟨s.data.take (s.data.length - n)⟩

/-- Python `s.startswith(p)`. -/
def pyStartsWith (s p : String) : Bool := p.data.isPrefixOf s.data

/-- Python `s.endswith(p)`. -/
def pyEndsWith (s p : String) : Bool := p.data.isSuffixOf s.data

/- ------------------------------------------------------------------ -/
/- The JSON grammar accepted by the Python `json.loads` (strict mode).  -/
/- ------------------------------------------------------------------ -/

/-- JSON insignificant whitespace. -/
def jsonWs (c : Char) : Bool := c = ' ' || c = '\t' || c = '\n' || c = '\r'

def skipWs : List Char → List Char
  | [] => []
  | c :: cs => if jsonWs c then skipWs cs else c :: cs

def isHexDigit (c : Char) : Bool :=
  c.isDigit || ('a' ≤ c && c ≤ 'f') || ('A' ≤ c && c ≤ 'F')

def hexVal (c : Char) : Nat :=
  if c.isDigit then c.toNat - '0'.toNat
  else if 'a' ≤ c && c ≤ 'f' then c.toNat - 'a'.toNat + 10
  else c.toNat - 'A'.toNat + 10

/-- Parse the body of a JSON string literal (after the opening quote),
returning the decoded characters and the remaining input.  `\uXXXX`
escapes are decoded, combining surrogate pairs the way Python does; a
lone surrogate (unrepresentable in `Char`) is replaced by U+FFFD. -/
def parseStringBody : Nat → List Char → Option (List Char × List Char)
  | 0, _ => none
  | _, [] => none
  | fuel + 1, c :: cs =>
    if c = '"' then some ([], cs)
    else if c = '\\' then
      match cs with
      | [] => none
      | e :: cs' =>
        let cont (ch : Char) (rest : List Char) : Option (List Char × List Char) :=
          match parseStringBody fuel rest with
          | some (body, rem) => some (ch :: body, rem)
          | none => none
        if e = '"' then cont '"' cs'
        else if e = '\\' then cont '\\' cs'
        else if e = '/' then cont '/' cs'
        else if e = 'b' then cont (Char.ofNat 8) cs'
        else if e = 'f' then cont (Char.ofNat 12) cs'
        else if e = 'n' then cont '\n' cs'
        else if e = 'r' then cont '\r' cs'
        else if e = 't' then cont '\t' cs'
        else if e = 'u' then
          match cs' with
          | h1 :: h2 :: h3 :: h4 :: rest =>
            if isHexDigit h1 && isHexDigit h2 && isHexDigit h3 && isHexDigit h4 then
              let n := ((hexVal h1 * 16 + hexVal h2) * 16 + hexVal h3) * 16 + hexVal h4
              if 0xD800 ≤ n && n ≤ 0xDBFF then
                match rest with
                | '\\' :: 'u' :: g1 :: g2 :: g3 :: g4 :: rest' =>
                  if isHexDigit g1 && isHexDigit g2 && isHexDigit g3 && isHexDigit g4 then
                    let m := ((hexVal g1 * 16 + hexVal g2) * 16 + hexVal g3) * 16 + hexVal g4
                    if 0xDC00 ≤ m && m ≤ 0xDFFF then
                      cont (Char.ofNat (0x10000 + (n - 0xD800) * 0x400 + (m - 0xDC00))) rest'
                    else cont (Char.ofNat 0xFFFD) rest
                  else cont (Char.ofNat 0xFFFD) rest
                | _ => cont (Char.ofNat 0xFFFD) rest
              else if 0xDC00 ≤ n && n ≤ 0xDFFF then cont (Char.ofNat 0xFFFD) rest
              else cont (Char.ofNat n) rest
            else none
          | _ => none
        else none
    else if c.toNat < 0x20 then none  -- strict mode: raw control characters rejected
    else
      match parseStringBody fuel cs with
      | some (body, rem) => some (c :: body, rem)
      | none => none

/-- Lex a JSON number starting at the input, per the JSON grammar
(`-? (0 | [1-9][0-9]*) frac? exp?`), returning its lexeme. -/
def lexNumber (cs : List Char) : Option (List Char × List Char) :=
  let digits : List Char → List Char × List Char := fun l =>
    (l.takeWhile Char.isDigit, l.dropWhile Char.isDigit)
  let intPart : List Char → Option (List Char × List Char) := fun l =>
    match l with
    | '0' :: rest => some (['0'], rest)
    | c :: _ =>
      if c.isDigit then
        let (ds, rest) := digits l
        some (ds, rest)
      else none
    | [] => none
  let (sign, afterSign) :=
    match cs with
    | '-' :: rest => (['-'], rest)
    | _ => (([] : List Char), cs)
  match intPart afterSign with
  | none => none
  | some (ip, afterInt) =>
    let (frac, afterFrac) :=
      match afterInt with
      | '.' :: rest =>
        let (ds, rest') := digits rest
        if ds = [] then ([], afterInt) else ('.' :: ds, rest')
      | _ => (([] : List Char), afterInt)
    if frac = [] ∧ afterInt ≠ afterFrac then none
    else
      let (ex, afterExp) :=
        match afterFrac with
        | e :: rest =>
          if e = 'e' ∨ e = 'E' then
            let (sgn, rest') :=
              match rest with
              | s :: r => if s = '+' ∨ s = '-' then ([s], r) else ([], rest)
              | [] => (([] : List Char), rest)
            let (ds, rest'') := digits rest'
            if ds = [] then ([], afterFrac) else (e :: (sgn ++ ds), rest'')
          else ([], afterFrac)
        | [] => (([] : List Char), afterFrac)
      some (sign ++ ip ++ frac ++ ex, afterExp)

/-- Python-dict assignment `d[k] = v`: replace the value of an existing
key in place, otherwise append the new pair. -/
def objSet : JsonObj → String → Json → JsonObj
  | [], k, v => [(k, v)]
  | (k', v') :: rest, k, v =>
    if k' = k then (k', v) :: rest else (k', v') :: objSet rest k v

/-- Python `k in d` for a dict. -/
def hasKey (d : JsonObj) (k : String) : Bool := d.any (fun p => p.1 = k)

/-- Python `d.get(k)` (`None` ↦ `Option.none`). -/
def objGet (d : JsonObj) (k : String) : Option Json :=
  (d.find? (fun p => p.1 = k)).map (·.2)

mutual

/-- Recursive-descent parser for one JSON value (fuel-indexed). -/
def parseVal : Nat → List Char → Option (Json × List Char)
  | 0, _ => none
  | fuel + 1, cs =>
    match skipWs cs with
    | [] => none
    | c :: rest =>
      if c = '{' then
        match skipWs rest with
        | '}' :: rem => some (.obj [], rem)
        | other => parseMembers fuel other []
      else if c = '[' then
        match skipWs rest with
        | ']' :: rem => some (.arr [], rem)
        | other => parseItems fuel other []
      else if c = '"' then
        match parseStringBody (rest.length + 1) rest with
        | some (body, rem) => some (.str ⟨body⟩, rem)
        | none => none
      else if c = 't' then
        match rest with
        | 'r' :: 'u' :: 'e' :: rem => some (.bool true, rem)
        | _ => none
      else if c = 'f' then
        match rest with
        | 'a' :: 'l' :: 's' :: 'e' :: rem => some (.bool false, rem)
        | _ => none
      else if c = 'n' then
        match rest with
        | 'u' :: 'l' :: 'l' :: rem => some (.null, rem)
        | _ => none
      else if c = 'N' then
        match rest with
        | 'a' :: 'N' :: rem => some (.num "NaN", rem)
        | _ => none
      else if c = 'I' then
        match rest with
        | 'n' :: 'f' :: 'i' :: 'n' :: 'i' :: 't' :: 'y' :: rem => some (.num "Infinity", rem)
        | _ => none
      else if c = '-' ∧ rest.take 8 = "Infinity".data then
        some (.num "-Infinity", rest.drop 8)
      else if c = '-' ∨ c.isDigit then
        match lexNumber (c :: rest) with
        | some (lex, rem) => some (.num ⟨lex⟩, rem)
        | none => none
      else none

/-- Parse the members of a JSON object after `{` (first member next). -/
def parseMembers : Nat → List Char → JsonObj → Option (Json × List Char)
  | 0, _, _ => none
  | fuel + 1, cs, acc =>
    match skipWs cs with
    | '"' :: rest =>
      match parseStringBody (rest.length + 1) rest with
      | none => none
      | some (key, afterKey) =>
        match skipWs afterKey with
        | ':' :: afterColon =>
          match parseVal fuel afterColon with
          | none => none
          | some (v, afterVal) =>
            let acc' := objSet acc ⟨key⟩ v
            match skipWs afterVal with
            | ',' :: next => parseMembers fuel next acc'
            | '}' :: rem => some (.obj acc', rem)
            | _ => none
        | _ => none
    | _ => none

/-- Parse the items of a JSON array after `[` (first item next). -/
def parseItems : Nat → List Char → List Json → Option (Json × List Char)
  | 0, _, _ => none
  | fuel + 1, cs, acc =>
    match parseVal fuel cs with
    | none => none
    | some (v, afterVal) =>
      match skipWs afterVal with
      | ',' :: next => parseItems fuel next (acc ++ [v])
      | ']' :: rem => some (.arr (acc ++ [v]), rem)
      | _ => none

end

/-- Python `json.loads`: parse one JSON document; trailing data other
than whitespace is an error. -/
def jsonParse (s : String) : Option Json :=
  match parseVal (s.data.length + 2) s.data with
  | some (v, rest) => if skipWs rest = [] then some v else none
  | none => none

/- ------------------------------------------------------------------ -/
/- `parse_b2b_json_response` (src/services/message_processor.py 191-262) -/
/- ------------------------------------------------------------------ -/

/-- The `fallback` dictionary built at the top of
`parse_b2b_json_response`. -/
def fallbackBase : JsonObj :=
  [("intent", .str "Noise"),
   ("priority", .str "Low"),
   ("summary", .str "Could not parse message"),
   ("client_action", .str "Manual review required"),
   ("original_language", .str "Unknown"),
   ("transcription", .str ""),
   ("parse_error", .bool false),
   ("raw_response", .str "")]

def valid_intents : List String := ["New Task", "Revision", "Inquiry", "Urgent", "Noise"]

def valid_priorities : List String := ["High", "Medium", "Low"]

/-- The code-fence cleanup performed on the raw response before
`json.loads`: strip, drop a leading ```` ```json ```` or ```` ``` ````
marker, drop a trailing ```` ``` ```` marker, strip again. -/
def cleanResponse (s : String) : String :=
  let cleaned := pyStrip s
  let cleaned :=
    if pyStartsWith cleaned "```json" then pyDrop cleaned 7
    else if pyStartsWith cleaned "```" then pyDrop cleaned 3
    else cleaned
  let cleaned := if pyEndsWith cleaned "```" then pyDropRight cleaned 3 else cleaned
  pyStrip cleaned

/-- One iteration of the required-fields loop: if `f` is absent,
substitute `fallback.get(f, "")`. -/
def ensureField (d : JsonObj) (f : String) : JsonObj :=
  if hasKey d f then d else objSet d f ((objGet fallbackBase f).getD (.str ""))

/-- Membership test `parsed.get(k) not in valid` — Python equality between the looked-up
value (possibly `None` or non-string) and a list of strings. -/
def valueInStrs (v : Option Json) (valid : List String) : Bool :=
  match v with
  | some (.str s) => valid.contains s
  | _ => false

/-- Enum validation: keep the value when it is one of `valid`, otherwise
substitute `dflt`. -/
def fixEnum (d : JsonObj) (k : String) (valid : List String) (dflt : String) : JsonObj :=
  if valueInStrs (objGet d k) valid then d else objSet d k (.str dflt)

/-- The successful-decode path of `parse_b2b_json_response`: substitute
fallback values for absent required fields, correct the `intent` and
`priority` enums, and set `parse_error = False`. -/
def validateParsed (kvs : JsonObj) : JsonObj :=
  let p := ensureField (ensureField (ensureField (ensureField kvs "intent") "priority") "summary") "client_action"
  let p := fixEnum p "intent" valid_intents "Noise"
  let p := fixEnum p "priority" valid_priorities "Medium"
  objSet p "parse_error" (.bool false)

/-- The `json.JSONDecodeError` handler: fallback result keeping prefixes
of the raw text. -/
def fallbackOnError (response_text : String) : JsonObj :=
  objSet (objSet (objSet (objSet fallbackBase
    "parse_error" (.bool true))
    "raw_response" (.str (pyTake response_text 1000)))
    "summary" (.str (if response_text = "" then "Parse error" else pyTake response_text 200)))
    "client_action" (.str "Manual review required - AI response was not valid JSON")

/-- Embedding of `parse_b2b_json_response` (lines 191-262).  The Python function
returns a dict; when `json.loads` yields a value that is not a dict the
required-fields loop raises an uncaught `TypeError`/`AttributeError`
(only `json.JSONDecodeError` is handled), embedded here as `.error`. -/
def parse_b2b_json_response (response_text : String) : Except String JsonObj :=
  if response_text = "" then
    .ok (objSet fallbackBase "parse_error" (.bool true))
  else
    match jsonParse (cleanResponse response_text) with
    | some (.obj kvs) => .ok (validateParsed kvs)
    | some _ => .error "TypeError"
    | none => .ok (fallbackOnError response_text)

/-- Field projection of a decoder outcome (an exception carries no
result). -/
def getField (r : Except String JsonObj) (k : String) : Option Json :=
  match r with
  | .ok d => objGet d k
  | .error _ => none

/-- String-valued field projection of a decoder outcome. -/
def getStrField (r : Except String JsonObj) (k : String) : Option String :=
  match getField r k with
  | some (.str s) => some s
  | _ => none

/- ------------------------------------------------------------------ -/
/- `build_reply_message` (src/services/message_processor.py 265-297)   -/
/- ------------------------------------------------------------------ -/

mutual

/-- Python `str()` of an embedded value, used where the source
interpolates dictionary values into f-strings.  Nested containers get a
`repr`-like rendering (string-escape subtleties inside `repr` are not
modelled; no claim inspects them). -/
def pyStrOf : Json → String
  | .null => "None"
  | .bool true => "True"
  | .bool false => "False"
  | .num lit => lit
  | .str s => s
  | .arr xs => "[" ++ pyReprList xs ++ "]"
  | .obj kvs => "\x7b" ++ pyReprObj kvs ++ "\x7d"

def pyReprOf : Json → String
  | .null => "None"
  | .bool true => "True"
  | .bool false => "False"
  | .num lit => lit
  | .str s => "\x27" ++ s ++ "\x27"
  | .arr xs => "[" ++ pyReprList xs ++ "]"
  | .obj kvs => "\x7b" ++ pyReprObj kvs ++ "\x7d"

def pyReprList : List Json → String
  | [] => ""
  | [x] => pyReprOf x
  | x :: xs => pyReprOf x ++ ", " ++ pyReprList xs

def pyReprObj : List (String × Json) → String
  | [] => ""
  | [(k, v)] => "\x27" ++ k ++ "\x27: " ++ pyReprOf v
  | (k, v) :: kvs => "\x27" ++ k ++ "\x27: " ++ pyReprOf v ++ ", " ++ pyReprObj kvs

end

/-- Python truthiness of an embedded value (`if b2b_data.get(...)`).
A number is falsy exactly when it denotes zero; its lexeme then has no
nonzero digit and is not `NaN`/`Infinity`. -/
def pyTruthy : Json → Bool
  | .null => false
  | .bool b => b
  | .num lit => lit.data.any (fun c => ('1' ≤ c && c ≤ '9') || c = 'N' || c = 'I')
  | .str s => !s.data.isEmpty
  | .arr xs => !xs.isEmpty
  | .obj kvs => !kvs.isEmpty

/-- Python `d.get(k, dflt)`. -/
def getOr (d : JsonObj) (k : String) (dflt : Json) : Json :=
  (objGet d k).getD dflt

/-- Outcome dictionary of the Google-Sheets save operation as consumed
by the pipeline: a dict holding `success` and `doc_url` (the `doc_url`
key is absent on failure, hence the `Option`). -/
structure DriveResult where
  success : Bool
  doc_url : Option String

/-- Rendering of an optional value interpolated into an f-string
(`None` prints as `"None"`). -/
def pyStrOfOpt : Option String → String
  | none => "None"
  | some s => s

/-- The `intent_emoji` lookup with default (source stores the icon
strings in a mojibake encoding; the exact code points of the file are
reproduced here). -/
def intentEmoji (v : Json) : String :=
  match v with
  | .str "New Task" => "\uF8FF\u00FC\u00DC\u00EF"
  | .str "Revision" => "\uF8FF\u00FC\u00EE\u00D1"
  | .str "Inquiry" => "\u201A\u00F9\u00EC"
  | .str "Urgent" => "\uF8FF\u00FC\u00F6\u00AE"
  | .str "Noise" => "\uF8FF\u00FC\u00ED\u00A8"
  | _ => "\uF8FF\u00FC\u00EC\u00F9"

/-- The trailing status line of the reply: locator on persistence
success, failure notice otherwise. -/
def replyStatusLine (drive_result : DriveResult) : String :=
  if drive_result.success then
    "\n\n\uF8FF\u00FC\u00EC\u00C5 " ++ pyStrOfOpt drive_result.doc_url
  else
    "\n\n\u201A\u00F6\u2020\u00D4\u220F\u00E8 Note: Failed to save to Sheets."

/-- Embedding of `build_reply_message` (lines 265-297): header with icon, summary
line, optional action line, status line, joined by string concatenation. -/
def build_reply_message (b2b_data : JsonObj) (drive_result : DriveResult) : String :=
  let emoji := intentEmoji (getOr b2b_data "intent" (.str "Noise"))
  let header := emoji ++ " *" ++ pyStrOf (getOr b2b_data "intent" (.str "Received"))
    ++ "* - " ++ pyStrOf (getOr b2b_data "priority" (.str "Medium")) ++ " Priority\n"
  let summaryLine := "\uF8FF\u00FC\u00EC\u00E3 " ++ pyStrOf (getOr b2b_data "summary" (.str "Message logged"))
  let actionLine :=
    if pyTruthy (getOr b2b_data "client_action" .null) then
      "\n\n\uF8FF\u00FC\u00ED\u00B0 *Action:* " ++ pyStrOf (getOr b2b_data "client_action" .null)
    else ""
  ((header ++ summaryLine) ++ actionLine) ++ replyStatusLine drive_result

/- ------------------------------------------------------------------ -/
/- Pipeline orchestrators (lines 300-366 and 369-453)                   -/
/- ------------------------------------------------------------------ -/

/-- Outcome of one `requests.get` call: an HTTP response, or a raised
transport exception (`requests` raises, e.g., `InvalidSchema` for a URL
scheme it has no adapter for — including `data:` URIs). -/
inductive HttpOutcome where
  | resp (status : Nat) (text : String) (content : List Nat)
  | exn (msg : String)

/-- Embedding of `process_text_message` (lines 300-366), with the remote
classification call and the Sheets save abstracted as oracles.  The
return value is the sequence of texts passed to `send_reply_func`, in
order.  `text_content = none` embeds a `None` text from a malformed
adapter payload: `text_content.strip()` then raises `AttributeError`,
which the catch-all of the orchestrator converts into an error reply.
`gemini` is the value of `get_gemini_b2b_response` (that function has
its own catch-all and returns a dict or `None`; Python also treats an
empty dict as falsy, hence the `isEmpty` test). -/
def process_text_message (text_content : Option String)
    (gemini : Option JsonObj) (drive_result : DriveResult) : List String :=
  match text_content with
  | none =>
    ["\u201A\u00F9\u00E5 Error processing message: \x27NoneType\x27 object has no attribute \x27strip\x27"]
  | some t =>
    if pyStrip t = "" then []
    else
      let ack := "\uF8FF\u00FC\u00EC\u00E3 Message received! Processing..."
      match gemini with
      | none => [ack, "\u201A\u00F9\u00E5 Failed to analyze message."]
      | some b2b_data =>
        if b2b_data.isEmpty then [ack, "\u201A\u00F9\u00E5 Failed to analyze message."]
        else [ack, build_reply_message b2b_data drive_result]

/-- Embedding of `process_voice_note` (lines 369-453).  First component: texts passed
to `send_reply_func`; second component: URLs passed to `requests.get`
(the audio transport).  The download is attempted unconditionally for
every `audio_url`; a transport exception is absorbed by the
catch-all of the orchestrator into an error reply. -/
def process_voice_note (audio_url : String) (mime_type : String)
    (http : String → HttpOutcome) (gemini : Option JsonObj)
    (drive_result : DriveResult) : List String × List String :=
  let _ := mime_type
  let ack := "\uF8FF\u00FC\u00E9\u00F4\u00D4\u220F\u00E8 Voice message received! Analyzing..."
  match http audio_url with
  | .exn e =>
    ([ack, "\u201A\u00F9\u00E5 Error processing voice message: " ++ e], [audio_url])
  | .resp status _ _ =>
    if status ≠ 200 then
      ([ack, "\u201A\u00F9\u00E5 Failed to download audio."], [audio_url])
    else
      match gemini with
      | none => ([ack, "\u201A\u00F9\u00E5 Failed to analyze voice message."], [audio_url])
      | some b2b_data =>
        if b2b_data.isEmpty then
          ([ack, "\u201A\u00F9\u00E5 Failed to analyze voice message."], [audio_url])
        else ([ack, build_reply_message b2b_data drive_result], [audio_url])

/- ------------------------------------------------------------------ -/
/- `is_whitelisted` (src/services/message_processor.py 41-70)           -/
/- ------------------------------------------------------------------ -/

/-- Digit filter of the source (a regex substitution deleting every
non-digit character). -/
def normalizeDigits (s : String) : String := ⟨s.data.filter Char.isDigit⟩

/-- One whitelist comparison: the normalized candidate and the
normalized entry must be suffixes of each other (either way round). -/
def suffixMatch (normalized : String) (entry : String) : Bool :=
  let entry_norm := normalizeDigits entry
  pyEndsWith normalized entry_norm || pyEndsWith entry_norm normalized

/-- `is_whitelisted` (lines 41-70), parameterized by the loaded
`clients.json` keys and the parsed `WHITELIST_NUMBERS` entries.  The two
sequential early-return loops of the source are the two `List.any`
passes. -/
def is_whitelisted (clients : List String) (env_whitelist : List String)
    (phone_number : String) : Bool :=
  let normalized := normalizeDigits phone_number
  clients.any (fun c => suffixMatch normalized c)
    || env_whitelist.any (fun a => suffixMatch normalized a)

/-- The parsing of the `WHITELIST_NUMBERS` environment variable:
a comprehension keeping each stripped nonempty comma-separated entry. -/
def parseEnvWhitelist (v : String) : List String :=
  ((v.splitOn ",").map pyStrip).filter (fun x => x ≠ "")

/- ------------------------------------------------------------------ -/
/- `save_b2b_task` row construction (src/google_drive_service.py 114-139) -/
/- ------------------------------------------------------------------ -/

/-- A value stored in the `task_data` dict as read by `save_b2b_task`
(string field or Python `None`); an `Option` layer in the association
list would instead mean an absent key, so values use this type. -/
inductive PyVal where
  | none : PyVal
  | str (s : String) : PyVal

/-- Python `d.get(k, dflt)` over the task dict. -/
def pyGet (d : List (String × PyVal)) (k : String) (dflt : PyVal) : PyVal :=
  match d.find? (fun p => p.1 = k) with
  | some p => p.2
  | Option.none => dflt

/-- Python `x or ""` applied to a cell value. -/
def pyOrEmpty : PyVal → String
  | .none => ""
  | .str s => s

/-- The row built and appended by `save_b2b_task` (lines 114-139).
`timestamp_str` is the already-stringified timestamp and `client_name`
the result of the `get_client_name` lookup.  The summary cell is
the summary field sliced to 500 characters; slicing a `None` summary
raises an uncaught `TypeError` (caught by the handler of the method
itself, which reports failure), embedded as `.error`. -/
def save_b2b_task (phone_number : String) (client_name : String)
    (timestamp_str : String) (task_data : List (String × PyVal)) :
    Except String (List PyVal) :=
  match pyGet task_data "summary" (.str "") with
  | .none => .error "TypeError"
  | .str summary =>
    .ok [.str timestamp_str,
         .str client_name,
         .str phone_number,
         pyGet task_data "intent" (.str "Unknown"),
         pyGet task_data "priority" (.str "Medium"),
         .str (pyTake summary 500),
         pyGet task_data "client_action" (.str ""),
         .str (pyOrEmpty (pyGet task_data "media_url" (.str ""))),
         pyGet task_data "channel" (.str "Unknown")]

/-- Number of columns of a submitted row (none for a raised slice). -/
def rowLength (r : Except String (List PyVal)) : Option Nat :=
  match r with
  | .ok row => some row.length
  | .error _ => none

/- ------------------------------------------------------------------ -/
/- Dictionary lemmas                                                    -/
/- ------------------------------------------------------------------ -/

lemma objGet_objSet_self (d : JsonObj) (k : String) (v : Json) :
    objGet (objSet d k v) k = some v := by
  induction d with
  | nil => simp [objSet, objGet, List.find?]
  | cons p rest ih =>
    obtain ⟨k', v'⟩ := p
    by_cases h : k' = k
    · subst h
      simp [objSet, objGet, List.find?]
    · simpa [objSet, objGet, List.find?, h] using ih

lemma objGet_objSet_ne (d : JsonObj) {k k' : String} (v : Json) (h : k ≠ k') :
    objGet (objSet d k' v) k = objGet d k := by
  induction d with
  | nil => simp [objSet, objGet, List.find?, Ne.symm h]
  | cons p rest ih =>
    obtain ⟨k₀, v₀⟩ := p
    by_cases h0 : k₀ = k'
    · subst h0
      simp [objSet, objGet, List.find?, Ne.symm h]
    · by_cases h1 : k₀ = k
      · subst h1
        simp [objSet, objGet, List.find?, h0]
      · simpa [objSet, objGet, List.find?, h0, h1] using ih

lemma hasKey_objSet_ne (d : JsonObj) {k k' : String} (v : Json) (h : k ≠ k') :
    hasKey (objSet d k' v) k = hasKey d k := by
  induction d with
  | nil => simp [objSet, hasKey, Ne.symm h]
  | cons p rest ih =>
    obtain ⟨k₀, v₀⟩ := p
    by_cases h0 : k₀ = k'
    · subst h0
      simp [objSet, hasKey, Ne.symm h]
    · have ih' : (objSet rest k' v).any (fun p => p.1 = k) = rest.any (fun p => p.1 = k) := ih
      simp [objSet, hasKey, h0, ih']
lemma objGet_ensureField_ne (d : JsonObj) {k f : String} (h : k ≠ f) :
    objGet (ensureField d f) k = objGet d k := by
  unfold ensureField
  split
  · rfl
  · exact objGet_objSet_ne d _ h

lemma hasKey_ensureField_ne (d : JsonObj) {k f : String} (h : k ≠ f) :
    hasKey (ensureField d f) k = hasKey d k := by
  unfold ensureField
  split
  · rfl
  · exact hasKey_objSet_ne d _ h

lemma objGet_fixEnum_ne (d : JsonObj) {k f : String} (valid : List String)
    (dflt : String) (h : k ≠ f) :
    objGet (fixEnum d f valid dflt) k = objGet d k := by
  unfold fixEnum
  split
  · rfl
  · exact objGet_objSet_ne d _ h

lemma fixEnum_noop (d : JsonObj) (k : String) (valid : List String) (dflt : String)
    (h : valueInStrs (objGet d k) valid = true) : fixEnum d k valid dflt = d := by
  simp [fixEnum, h]

lemma ensureField_of_missing (d : JsonObj) (f : String) (h : hasKey d f = false) :
    ensureField d f = objSet d f ((objGet fallbackBase f).getD (.str "")) := by
  simp [ensureField, h]

/- ------------------------------------------------------------------ -/
/- Claims about the classifier response decoder                         -/
/- ------------------------------------------------------------------ -/

/-- Claim C1 (code bug): the decoder is claimed to return an enum-valid
result for every input string, but for the input `"null"` — valid JSON
whose decoded value is not a dict — the required-fields membership test
raises an uncaught `TypeError` (only `json.JSONDecodeError` is handled),
so no result is returned at all. -/
theorem parse_b2b_raises_on_nonobject_json :
    parse_b2b_json_response "null" = .error "TypeError" ∧
    parse_b2b_json_response "[1, 2]" = .error "TypeError" := ⟨rfl, rfl⟩

/-- Claim C4 (amended): when the upstream response is valid JSON (after
code-fence cleanup) but has no `priority` field, the substituted value
is the fallback value `"Low"` — not the empty value the spec
describes — and `"Low"` is already enum-valid, so the enum-correction
step keeps it.  The decoded result therefore has `priority = "Low"`
(not `"Medium"`) and `parse_error = false`. -/
theorem parse_b2b_missing_priority_gives_low (s : String) (kvs : JsonObj)
    (hparse : jsonParse (cleanResponse s) = some (.obj kvs))
    (hmiss : hasKey kvs "priority" = false) :
    getField (parse_b2b_json_response s) "priority" = some (.str "Low") ∧
    getField (parse_b2b_json_response s) "parse_error" = some (.bool false) := by
  have hs : s ≠ "" := by
    intro h
    subst h
    rw [show jsonParse (cleanResponse "") = none from rfl] at hparse
    exact Option.noConfusion hparse
  have hres : parse_b2b_json_response s = .ok (validateParsed kvs) := by
    simp [parse_b2b_json_response, hs, hparse]
  have hp1 : hasKey (ensureField kvs "intent") "priority" = false := by
    rw [hasKey_ensureField_ne kvs (by decide)]
    exact hmiss
  have hp2 : objGet (ensureField (ensureField kvs "intent") "priority") "priority"
      = some (.str "Low") := by
    rw [ensureField_of_missing _ _ hp1]
    exact objGet_objSet_self _ _ _
  have hp4 : objGet (ensureField (ensureField (ensureField (ensureField kvs
      "intent") "priority") "summary") "client_action") "priority" = some (.str "Low") := by
    rw [objGet_ensureField_ne _ (by decide), objGet_ensureField_ne _ (by decide)]
    exact hp2
  have hq1 : objGet (fixEnum (ensureField (ensureField (ensureField (ensureField kvs
      "intent") "priority") "summary") "client_action") "intent" valid_intents "Noise")
      "priority" = some (.str "Low") := by
    rw [objGet_fixEnum_ne _ _ _ (by decide)]
    exact hp4
  have hlow : valueInStrs (some (Json.str "Low")) valid_priorities = true := by decide
  have hq2 : objGet (fixEnum (fixEnum (ensureField (ensureField (ensureField (ensureField kvs
      "intent") "priority") "summary") "client_action") "intent" valid_intents "Noise")
      "priority" valid_priorities "Medium") "priority" = some (.str "Low") := by
    rw [fixEnum_noop _ _ _ _ (by rw [hq1]; exact hlow)]
    exact hq1
  constructor
  · rw [hres]
    show objGet (validateParsed kvs) "priority" = some (.str "Low")
    unfold validateParsed
    rw [objGet_objSet_ne _ _ (by decide)]
    exact hq2
  · rw [hres]
    show objGet (validateParsed kvs) "parse_error" = some (.bool false)
    unfold validateParsed
    exact objGet_objSet_self _ _ _

/-- A concrete upstream response: valid JSON, `priority` absent. -/
def missingPriorityInput : String :=
  "\x7b\"intent\": \"Inquiry\", \"summary\": \"s\", \"client_action\": \"a\"\x7d"

/-- Claim C4 (counterexample): on a valid-JSON response with no
`priority` field the decoder yields `priority = "Low"`, refuting the
claimed `priority = "Medium"`. -/
theorem parse_b2b_missing_priority_not_medium :
    getField (parse_b2b_json_response missingPriorityInput) "priority"
      = some (.str "Low") ∧
    some (Json.str "Low") ≠ some (Json.str "Medium") := by
  constructor
  · rfl
  · intro h
    injection h with h1
    injection h1 with h2
    exact absurd h2 (by decide)

/-- Claim C4 (witness): the amended theorem applied to the concrete
missing-`priority` response. -/
theorem parse_b2b_missing_priority_gives_low_witness :
    getField (parse_b2b_json_response missingPriorityInput) "priority"
      = some (.str "Low") ∧
    getField (parse_b2b_json_response missingPriorityInput) "parse_error"
      = some (.bool false) :=
  parse_b2b_missing_priority_gives_low missingPriorityInput
    [("intent", .str "Inquiry"), ("summary", .str "s"), ("client_action", .str "a")]
    rfl rfl

/-- Claim C7 (confirmed): for every non-empty response that fails JSON
decoding after code-fence cleanup, the decoder returns the synthesized
fallback: `intent = "Noise"`, `priority = "Low"`, `parse_error = true`,
`summary` the first 200 characters of the raw text, and `raw_response`
the first 1000 characters of the raw text. -/
theorem parse_b2b_fallback_on_decode_failure (s : String) (hs : s ≠ "")
    (hfail : jsonParse (cleanResponse s) = none) :
    getField (parse_b2b_json_response s) "intent" = some (.str "Noise") ∧
    getField (parse_b2b_json_response s) "priority" = some (.str "Low") ∧
    getField (parse_b2b_json_response s) "parse_error" = some (.bool true) ∧
    getStrField (parse_b2b_json_response s) "summary" = some (pyTake s 200) ∧
    getStrField (parse_b2b_json_response s) "raw_response" = some (pyTake s 1000) := by
  have hres : parse_b2b_json_response s = .ok (fallbackOnError s) := by
    simp [parse_b2b_json_response, hs, hfail]
  refine ⟨?_, ?_, ?_, ?_, ?_⟩
  · rw [hres]
    show objGet (fallbackOnError s) "intent" = some (.str "Noise")
    unfold fallbackOnError
    rw [objGet_objSet_ne _ _ (by decide), objGet_objSet_ne _ _ (by decide),
      objGet_objSet_ne _ _ (by decide), objGet_objSet_ne _ _ (by decide)]
    rfl
  · rw [hres]
    show objGet (fallbackOnError s) "priority" = some (.str "Low")
    unfold fallbackOnError
    rw [objGet_objSet_ne _ _ (by decide), objGet_objSet_ne _ _ (by decide),
      objGet_objSet_ne _ _ (by decide), objGet_objSet_ne _ _ (by decide)]
    rfl
  · rw [hres]
    show objGet (fallbackOnError s) "parse_error" = some (.bool true)
    unfold fallbackOnError
    rw [objGet_objSet_ne _ _ (by decide), objGet_objSet_ne _ _ (by decide),
      objGet_objSet_ne _ _ (by decide)]
    exact objGet_objSet_self _ _ _
  · rw [hres]
    show getStrField (.ok (fallbackOnError s)) "summary" = some (pyTake s 200)
    have : objGet (fallbackOnError s) "summary"
        = some (.str (if s = "" then "Parse error" else pyTake s 200)) := by
      unfold fallbackOnError
      rw [objGet_objSet_ne _ _ (by decide)]
      exact objGet_objSet_self _ _ _
    simp [getStrField, getField, this, hs]
  · rw [hres]
    show getStrField (.ok (fallbackOnError s)) "raw_response" = some (pyTake s 1000)
    have : objGet (fallbackOnError s) "raw_response" = some (.str (pyTake s 1000)) := by
      unfold fallbackOnError
      rw [objGet_objSet_ne _ _ (by decide), objGet_objSet_ne _ _ (by decide)]
      exact objGet_objSet_self _ _ _
    simp [getStrField, getField, this]

/-- Claim C7 (witness): the literal upstream text `"not json"` yields
the fallback with `parse_error = true`, `intent = "Noise"`,
`priority = "Low"`, `raw_response = "not json"`. -/
theorem parse_b2b_fallback_on_decode_failure_witness :
    getField (parse_b2b_json_response "not json") "intent" = some (.str "Noise") ∧
    getField (parse_b2b_json_response "not json") "priority" = some (.str "Low") ∧
    getField (parse_b2b_json_response "not json") "parse_error" = some (.bool true) ∧
    getStrField (parse_b2b_json_response "not json") "summary" = some (pyTake "not json" 200) ∧
    getStrField (parse_b2b_json_response "not json") "raw_response" = some (pyTake "not json" 1000) :=
  parse_b2b_fallback_on_decode_failure "not json" (by decide) rfl

/-- Claim C6 (amended): the 200-character truncation of `summary`
happens only on the fallback path — whenever JSON decoding of the
cleaned response fails (including the empty input), any string summary
of the result is at most 200 characters.  The successful-decode path
passes `summary` through without truncation (see the counterexample). -/
theorem parse_b2b_summary_bounded_on_fallback (s : String)
    (hfail : jsonParse (cleanResponse s) = none) :
    ∀ t : String, getStrField (parse_b2b_json_response s) "summary" = some t →
      t.length ≤ 200 := by
  intro t ht
  by_cases hs : s = ""
  · subst hs
    have hcomp : getStrField (parse_b2b_json_response "") "summary"
        = some "Could not parse message" := rfl
    rw [hcomp] at ht
    injection ht with h1
    subst h1
    decide
  · have hres : parse_b2b_json_response s = .ok (fallbackOnError s) := by
      simp [parse_b2b_json_response, hs, hfail]
    have hget : objGet (fallbackOnError s) "summary"
        = some (.str (if s = "" then "Parse error" else pyTake s 200)) := by
      unfold fallbackOnError
      rw [objGet_objSet_ne _ _ (by decide)]
      exact objGet_objSet_self _ _ _
    rw [hres] at ht
    simp only [getStrField, getField, hget, hs, if_false, reduceIte] at ht
    injection ht with h1
    subst h1
    show (s.data.take 200).length ≤ 200
    rw [List.length_take]
    exact min_le_left _ _

/-- Claim C6 (witness): the bound applied to the concrete failed decode
`"not json"`. -/
theorem parse_b2b_summary_bounded_on_fallback_witness :
    ("not json" : String).length ≤ 200 :=
  parse_b2b_summary_bounded_on_fallback "not json" rfl "not json" rfl

/-- A valid-JSON upstream response whose `summary` is 201 characters. -/
def longSummaryInput : String :=
  "\x7b\"summary\": \"" ++ ⟨List.replicate 201 'a'⟩ ++ "\"\x7d"

set_option maxRecDepth 100000 in
/-- Claim C6 (counterexample): on the successful-decode path the
`summary` field is not truncated — a 201-character summary survives
with length 201 > 200, refuting the claim that every decoder result has
`summary` of at most 200 characters. -/
theorem parse_b2b_summary_not_truncated_on_success :
    (getStrField (parse_b2b_json_response longSummaryInput) "summary").map String.length
      = some 201 ∧ ¬ (201 ≤ 200) := by
  constructor
  · rfl
  · decide

/- ------------------------------------------------------------------ -/
/- Claims about the pipeline orchestrators                              -/
/- ------------------------------------------------------------------ -/

/-- Claim C2 (amended): the processing entry points never propagate a
failure to their caller — for every combination of oracle outcomes
(including transport exceptions and a `None` text from a malformed
adapter payload) they return a send trace.  The trace has the
acknowledgment plus exactly one final reply (two sends) for non-blank
text and for every voice note; blank text produces zero sends; a `None`
text produces the single catch-all error reply.  The unauthorized case
is filtered by the routers before these functions are called. -/
theorem process_send_counts :
    (∀ (text : Option String) (gemini : Option JsonObj) (drive : DriveResult),
      (process_text_message text gemini drive).length =
        match text with
        | none => 1
        | some t => if pyStrip t = "" then 0 else 2) ∧
    (∀ (url mime : String) (http : String → HttpOutcome) (gemini : Option JsonObj)
        (drive : DriveResult),
      ((process_voice_note url mime http gemini drive).1).length = 2) := by
  constructor
  · intro text gemini drive
    match text with
    | none => rfl
    | some t =>
      by_cases h : pyStrip t = ""
      · simp [process_text_message, h]
      · cases gemini with
        | none => simp [process_text_message, h]
        | some b2b =>
          cases b2b with
          | nil => simp [process_text_message, h]
          | cons p rest => simp [process_text_message, h]
  · intro url mime http gemini drive
    unfold process_voice_note
    cases http url with
    | exn e => rfl
    | resp status txt content =>
      by_cases hstat : status = 200
      · subst hstat
        cases gemini with
        | none => simp
        | some b2b =>
          cases b2b with
          | nil => simp
          | cons p rest => simp
      · simp [hstat]

/-- Claim C2 (counterexample): a non-blank, authorized text message with
a successful classification produces two calls to the supplied send
function (the acknowledgment and the final reply) — not "exactly one
reply", and not the "none" reserved for the unauthorized case. -/
theorem process_text_two_sends :
    (process_text_message (some "hi") (some [("intent", Json.str "Inquiry")])
      ⟨true, some "url"⟩).length = 2 ∧ (2 : Nat) ≠ 1 ∧ (2 : Nat) ≠ 0 :=
  ⟨rfl, by decide, by decide⟩

/-- Claim C3 (amended): audio acquisition has no inline-data branch —
every audio reference, a `data:` URI included, is handed to the HTTP
transport exactly once.  There is no path that base64-decodes the
reference without a transport call. -/
theorem voice_note_always_calls_transport (url mime : String)
    (http : String → HttpOutcome) (gemini : Option JsonObj) (drive : DriveResult) :
    (process_voice_note url mime http gemini drive).2 = [url] := by
  unfold process_voice_note
  cases http url with
  | exn e => rfl
  | resp status txt content =>
    by_cases hstat : status = 200
    · subst hstat
      cases gemini with
      | none => simp
      | some b2b =>
        cases b2b with
        | nil => simp
        | cons p rest => simp
    · simp [hstat]

/-- A transport oracle behaving like the `requests` library: it has no
connection adapter for the `data:` scheme and raises `InvalidSchema`
for such URLs. -/
def requestsLikeTransport : String → HttpOutcome := fun url =>
  if pyStartsWith url "data:" then
    .exn ("No connection adapters were found for \x27" ++ url ++ "\x27")
  else .resp 200 "" []

/-- Claim C3 (counterexample): for the data-URI reference
`"data:audio/ogg;base64,QUJD"` the code performs one transport call
(not zero), and with a `requests`-like transport the pipeline replies
with the catch-all error instead of decoding the inline payload to
`"ABC"`. -/
theorem voice_note_data_uri_fetched :
    (process_voice_note "data:audio/ogg;base64,QUJD" "audio/ogg"
        requestsLikeTransport none ⟨false, none⟩).2
      = ["data:audio/ogg;base64,QUJD"] ∧
    (["data:audio/ogg;base64,QUJD"] : List String) ≠ [] ∧
    (process_voice_note "data:audio/ogg;base64,QUJD" "audio/ogg"
        requestsLikeTransport none ⟨false, none⟩).1
      = ["\uF8FF\u00FC\u00E9\u00F4\u00D4\u220F\u00E8 Voice message received! Analyzing...",
         "\u201A\u00F9\u00E5 Error processing voice message: No connection adapters were found for \x27data:audio/ogg;base64,QUJD\x27"] :=
  ⟨rfl, by simp, rfl⟩

/-- Claim C3 (witness): the amended theorem evaluated at the concrete
data-URI reference. -/
theorem voice_note_always_calls_transport_witness :
    (process_voice_note "data:audio/ogg;base64,QUJD" "audio/ogg"
        (fun _ => .resp 404 "" []) none ⟨false, none⟩).2
      = ["data:audio/ogg;base64,QUJD"] :=
  voice_note_always_calls_transport "data:audio/ogg;base64,QUJD" "audio/ogg"
    (fun _ => .resp 404 "" []) none ⟨false, none⟩

/-- The status line is always the final segment of the composed
reply. -/
lemma replyStatusLine_suffix (b2b_data : JsonObj) (drive_result : DriveResult) :
    (replyStatusLine drive_result).data <:+ (build_reply_message b2b_data drive_result).data :=
  List.suffix_append _ _

/-- Claim C8 (confirmed): when classification succeeds, the pipeline
runs to completion whatever the persistence outcome: the final reply is
composed and sent after the acknowledgment, and its trailing status
line is the failure notice when persistence failed and carries the
document locator when it succeeded. -/
theorem persistence_failure_degrades_reply (t : String) (b2b : JsonObj)
    (drive : DriveResult) (ht : pyStrip t ≠ "") (hb : b2b ≠ []) :
    process_text_message (some t) (some b2b) drive
      = ["\uF8FF\u00FC\u00EC\u00E3 Message received! Processing...",
         build_reply_message b2b drive] ∧
    (drive.success = false →
      ("\n\n\u201A\u00F6\u2020\u00D4\u220F\u00E8 Note: Failed to save to Sheets.").data
        <:+ (build_reply_message b2b drive).data) ∧
    (drive.success = true →
      ("\n\n\uF8FF\u00FC\u00EC\u00C5 " ++ pyStrOfOpt drive.doc_url).data
        <:+ (build_reply_message b2b drive).data) := by
  refine ⟨?_, ?_, ?_⟩
  · cases b2b with
    | nil => exact absurd rfl hb
    | cons p rest => simp [process_text_message, ht]
  · intro hfail
    have h := replyStatusLine_suffix b2b drive
    rw [show replyStatusLine drive
        = "\n\n\u201A\u00F6\u2020\u00D4\u220F\u00E8 Note: Failed to save to Sheets."
      from by simp [replyStatusLine, hfail]] at h
    exact h
  · intro hok
    have h := replyStatusLine_suffix b2b drive
    rw [show replyStatusLine drive = "\n\n\uF8FF\u00FC\u00EC\u00C5 " ++ pyStrOfOpt drive.doc_url
      from by simp [replyStatusLine, hok]] at h
    exact h

/-- Claim C8 (witness): a concrete classified message with a failed
persistence call — the final reply is still sent and ends with the
failure notice. -/
theorem persistence_failure_degrades_reply_witness :
    process_text_message (some "x") (some [("intent", Json.str "New Task")])
        ⟨false, none⟩
      = ["\uF8FF\u00FC\u00EC\u00E3 Message received! Processing...",
         build_reply_message [("intent", Json.str "New Task")] ⟨false, none⟩] ∧
    ("\n\n\u201A\u00F6\u2020\u00D4\u220F\u00E8 Note: Failed to save to Sheets.").data
      <:+ (build_reply_message [("intent", Json.str "New Task")] ⟨false, none⟩).data := by
  have h := persistence_failure_degrades_reply "x" [("intent", Json.str "New Task")]
    ⟨false, none⟩ (by decide) (by simp)
  exact ⟨h.1, h.2.1 rfl⟩

/- ------------------------------------------------------------------ -/
/- Claims about persistence and authorization                           -/
/- ------------------------------------------------------------------ -/

/-- Claim C5 (amended): for every input pair the submitted row has
exactly 9 cells in the fixed order Timestamp, Client Name, Phone
Number, Intent, Priority, Summary (truncated to 500), Action Items,
Media Link, Channel — regardless of which optional fields are absent or
empty.  Neither a group-context column nor a message-identifier column
exists. -/
theorem save_b2b_task_nine_columns (phone client_name ts : String)
    (task : List (String × PyVal)) (summary : String)
    (hsum : pyGet task "summary" (.str "") = .str summary) :
    save_b2b_task phone client_name ts task
      = .ok [.str ts, .str client_name, .str phone,
             pyGet task "intent" (.str "Unknown"),
             pyGet task "priority" (.str "Medium"),
             .str (pyTake summary 500),
             pyGet task "client_action" (.str ""),
             .str (pyOrEmpty (pyGet task "media_url" (.str ""))),
             pyGet task "channel" (.str "Unknown")] ∧
    rowLength (save_b2b_task phone client_name ts task) = some 9 := by
  have hrow : save_b2b_task phone client_name ts task
      = .ok [.str ts, .str client_name, .str phone,
             pyGet task "intent" (.str "Unknown"),
             pyGet task "priority" (.str "Medium"),
             .str (pyTake summary 500),
             pyGet task "client_action" (.str ""),
             .str (pyOrEmpty (pyGet task "media_url" (.str ""))),
             pyGet task "channel" (.str "Unknown")] := by
    unfold save_b2b_task
    rw [hsum]
  exact ⟨hrow, by rw [hrow]; rfl⟩

/-- Claim C5 (witness): a task dict in which every optional field is
absent still produces exactly 9 cells. -/
theorem save_b2b_task_nine_columns_witness :
    save_b2b_task "972501234567" "" "2024-01-01 10:00" [("summary", PyVal.str "")]
      = .ok [.str "2024-01-01 10:00", .str "", .str "972501234567",
             .str "Unknown", .str "Medium", .str "", .str "", .str "", .str "Unknown"] ∧
    rowLength (save_b2b_task "972501234567" "" "2024-01-01 10:00"
      [("summary", PyVal.str "")]) = some 9 :=
  save_b2b_task_nine_columns "972501234567" "" "2024-01-01 10:00"
    [("summary", PyVal.str "")] "" rfl

/-- Claim C5 (counterexample): the row has 9 columns, not the 10 of the
claimed contract (Timestamp, Sender, Source, Context, Intent, Priority,
Summary, Action Items, Legal/Message ID, Media Link); the third cell is
the phone number rather than the gateway, and no context or message-id
cell exists. -/
theorem save_b2b_task_not_ten_columns :
    rowLength (save_b2b_task "972501234567" "Acme" "2024-01-01 10:00"
      [("intent", PyVal.str "New Task"), ("priority", PyVal.str "High"),
       ("summary", PyVal.str "s"), ("client_action", PyVal.str "do"),
       ("media_url", PyVal.str "m"), ("channel", PyVal.str "Meta")])
      = some 9 ∧ (9 : Nat) ≠ 10 := ⟨rfl, by decide⟩

/-- Nil is a suffix of every character list — the Python endswith test
with an empty suffix always holds. -/
lemma nil_isPrefixOf_true (l : List Char) : ([] : List Char).isPrefixOf l = true := by
  cases l <;> rfl

lemma pyEndsWith_empty (s : String) : pyEndsWith s "" = true := by
  show (List.isSuffixOf [] s.data) = true
  unfold List.isSuffixOf
  exact nil_isPrefixOf_true _

/-- Claim C9 (confirmed): whenever a registered client identifier `b`
and the candidate `a` — both reduced to their digit characters — are
suffixes of each other in either direction, `is_whitelisted` accepts
the candidate. -/
theorem is_whitelisted_of_suffix (clients env : List String) (a b : String)
    (hb : b ∈ clients)
    (h : pyEndsWith (normalizeDigits a) (normalizeDigits b) = true ∨
         pyEndsWith (normalizeDigits b) (normalizeDigits a) = true) :
    is_whitelisted clients env a = true := by
  have hm : suffixMatch (normalizeDigits a) b = true := by
    unfold suffixMatch
    rcases h with h | h
    · simp [h]
    · simp [h]
  simp only [is_whitelisted, Bool.or_eq_true, List.any_eq_true]
  exact Or.inl ⟨b, hb, hm⟩

/-- Claim C9 (witness): the example given by the spec — registry entry
`"501234567"`, candidate `"972501234567"`. -/
theorem is_whitelisted_of_suffix_witness :
    is_whitelisted ["501234567"] [] "972501234567" = true :=
  is_whitelisted_of_suffix ["501234567"] [] "972501234567" "501234567"
    (by decide) (Or.inl (by decide))

/-- Claim C10 (confirmed): a candidate with no digit characters
normalizes to the empty string, and since every registered entry ends
with the empty string, the very first entry of the client registry (or,
failing that, of the environment whitelist) produces a match — the
check accepts the digit-free candidate as soon as either list is
non-empty. -/
theorem is_whitelisted_of_no_digits (clients env : List String) (a : String)
    (ha : normalizeDigits a = "")
    (hne : clients ≠ [] ∨ env ≠ []) :
    is_whitelisted clients env a = true := by
  have hm : ∀ e : String, suffixMatch (normalizeDigits a) e = true := by
    intro e
    unfold suffixMatch
    rw [ha]
    simp [pyEndsWith_empty]
  simp only [is_whitelisted, Bool.or_eq_true, List.any_eq_true]
  rcases hne with h | h
  · obtain ⟨c, cs, rfl⟩ := List.exists_cons_of_ne_nil h
    exact Or.inl ⟨c, List.mem_cons_self c cs, hm c⟩
  · obtain ⟨c, cs, rfl⟩ := List.exists_cons_of_ne_nil h
    exact Or.inr ⟨c, List.mem_cons_self c cs, hm c⟩

/-- Claim C10 (witness): the digit-free candidate `"abc"` is accepted
against a one-entry registry. -/
theorem is_whitelisted_of_no_digits_witness :
    is_whitelisted ["0501"] [] "abc" = true :=
  is_whitelisted_of_no_digits ["0501"] [] "abc" rfl (Or.inl (by simp))
